import Mathlib

/-!
Shallow embedding of `landlab/components/flexure/flexure.py` (the `Flexure`
component) together with spec-models of the two collaborators that the file
imports from elsewhere in the repository (`funcs.get_flexure_parameter` and
`cfuncs.subside_grid_in_parallel`).

Real numbers of the Python code are embedded as rationals `ℚ`; the external
special functions (`scipy.special.kei`, `numpy.sqrt`), the flexural-parameter
routine and the constant π used inside the convolution kernel are abstract
parameters, since the code only consumes their input/output contracts.
-/

namespace FlexureModel

/-- A node field over a `rows × cols` raster grid (`numpy` array reshaped to
the grid's shape). -/
abbrev Field (rows cols : ℕ) : Type := Fin rows → Fin cols → ℚ

/-- Error kinds raised by `Flexure`: `ValueError(f"{method}: method not
understood")` at construction, and `ValueError("Effective elastic thickness
must be positive.")` in the `eet` setter. -/
inductive FlexErr : Type where
  | unsupportedMethod : String → FlexErr
  | invalidParameter : FlexErr
  deriving DecidableEq, Repr

/-- The state of a `Flexure` instance: material constants, method string,
worker count, the grid's spacing, the precomputed kei table `_r`, and the two
grid node fields the component reads and writes
(`lithosphere__overlying_pressure_increment` as `load`,
`lithosphere_surface__elevation_increment` as `deflection`). -/
structure FlexureState (rows cols : ℕ) : Type where
  eet : ℚ
  youngs : ℚ
  rho_mantle : ℚ
  gravity : ℚ
  method : String
  n_procs : ℕ
  dy : ℚ
  dx : ℚ
  r : Field rows cols
  load : Field rows cols
  deflection : Field rows cols

section Collaborators

/- `kei` is `scipy.special.kei`, `sqrtQ` is `numpy.sqrt`,
`get_flexure_parameter` is `landlab.components.flexure.funcs.
get_flexure_parameter` (external collaborators; only their signatures are
consumed by `flexure.py`), and `piQ` stands for the constant π used by the
convolution kernel's normalization. -/
variable (kei : ℚ → ℚ) (sqrtQ : ℚ → ℚ)
variable (get_flexure_parameter : ℚ → ℚ → ℕ → ℚ → ℚ)
variable (piQ : ℚ)

/-- `Flexure.gamma_mantle`: `self._rho_mantle * self._gravity`. -/
def gamma_mantle {rows cols : ℕ} (s : FlexureState rows cols) : ℚ :=
  s.rho_mantle * s.gravity

/-- `Flexure.alpha`: `get_flexure_parameter(self._eet, self._youngs, 2,
gamma_mantle=self.gamma_mantle)`. -/
def alphaOf {rows cols : ℕ} (s : FlexureState rows cols) : ℚ :=
  get_flexure_parameter s.eet s.youngs 2 (gamma_mantle s)

/-- `Flexure._create_kei_func_grid(shape, xy_spacing, alpha)`: with
`xy_spacing = (dy, dx)`, `np.meshgrid` gives `dx_m[i, j] = j * xy_spacing[1]`
and `dy_m[i, j] = i * xy_spacing[0]`, and the result is
`kei(np.sqrt(dx_m**2 + dy_m**2) / alpha)` elementwise. -/
def create_kei_func_grid (rows cols : ℕ) (dy dx alpha : ℚ) :
    Field rows cols :=
  fun i j => kei (sqrtQ (((j.1 : ℚ) * dx) ^ 2 + ((i.1 : ℚ) * dy) ^ 2) / alpha)

/-- Absolute row/column offset `|a - b|` between two node indices; stays below
the grid extent, so it indexes the origin-anchored kernel table. -/
def absDiff {n : ℕ} (a b : Fin n) : Fin n :=
  ⟨Nat.dist a.1 b.1, by
    have ha := a.2
    have hb := b.2
    unfold Nat.dist
    omega⟩

/-- Modelled from the spec: the Green's-function normalization constant
`2 / (π * alpha² * gamma_mantle)` applied by `cfuncs.subside_grid_in_parallel`
(the Cython translation unit is not part of the excerpt). -/
def kernel_norm (piQ alpha gamma : ℚ) : ℚ :=
  2 / (piQ * alpha ^ 2 * gamma)

/-- Modelled from the spec: the deflection a single worker computes at target
node `(qi, qj)` — the sum over all source nodes `p` carrying a nonzero
(area-premultiplied) load of `load_area[p] * kernel_norm * r[|qi-pi|,
|qj-pj|]`.  `load_area` is the `load * dx * dy` array handed to
`cfuncs.subside_grid_in_parallel`. -/
def node_response {rows cols : ℕ} (load_area r : Field rows cols)
    (piQ alpha gamma : ℚ) (qi : Fin rows) (qj : Fin cols) : ℚ :=
  ∑ p : Fin rows × Fin cols,
    if load_area p.1 p.2 ≠ 0 then
      load_area p.1 p.2 * kernel_norm piQ alpha gamma *
        r (absDiff qi p.1) (absDiff qj p.2)
    else 0

/-- Modelled from the spec: row-block size when the target rows are
partitioned into `n_procs` contiguous blocks (ceiling division, so every row
is covered and surplus workers get empty blocks). -/
def chunk (rows n_procs : ℕ) : ℕ :=
  (rows + n_procs - 1) / n_procs

/-- Modelled from the spec: `cfuncs.subside_grid_in_parallel(dz, load_area,
r, alpha, gamma_mantle, n_procs)` — the target rows are split into `n_procs`
contiguous blocks; the worker owning a row overwrites that row of the output
buffer `dz` with the full superposition sum for each of its target nodes;
rows owned by no worker keep the buffer's prior contents. -/
def subside_grid_in_parallel {rows cols : ℕ} (dz load_area r : Field rows cols)
    (piQ alpha gamma : ℚ) (n_procs : ℕ) : Field rows cols :=
  fun qi qj =>
    if qi.1 / chunk rows n_procs < n_procs then
      node_response load_area r piQ alpha gamma qi qj
    else dz qi qj

/-- `Flexure.subside_loads(loads, out=None)`: allocate a zero buffer when
`out` is not given, premultiply the loads by the cell area `dx * dy`, and run
`subside_grid_in_parallel` on the buffer. -/
def subside_loads {rows cols : ℕ} (s : FlexureState rows cols)
    (loads : Field rows cols) (out : Option (Field rows cols)) :
    Field rows cols :=
  let dz : Field rows cols := out.getD (fun _ _ => 0)
  let load_area : Field rows cols := fun i j => loads i j * s.dx * s.dy
  subside_grid_in_parallel dz load_area s.r piQ
    (alphaOf get_flexure_parameter s) (gamma_mantle s) s.n_procs

/-- `Flexure.update()`: copy the load field, zero the deflection field, then
either apply the Airy rule `deflection[:] = new_load / self.gamma_mantle` or
call `self.subside_loads(new_load, out=deflection)`. -/
def update {rows cols : ℕ} (s : FlexureState rows cols) :
    FlexureState rows cols :=
  let new_load : Field rows cols := s.load
  let zeroed : Field rows cols := fun _ _ => 0
  if s.method = "airy" then
    { s with deflection := fun i j => new_load i j / gamma_mantle s }
  else
    { s with deflection :=
        subside_loads get_flexure_parameter piQ s new_load (some zeroed) }

/-- The `eet` setter as a state transformer that also reports whether it
raised: the positivity check comes first (raising leaves the state untouched);
on success `_eet` is stored and `_r` is synchronously rebuilt from the grid's
shape and spacing and the new `alpha`. -/
def set_eet_run {rows cols : ℕ} (s : FlexureState rows cols) (new_val : ℚ) :
    FlexureState rows cols × Option FlexErr :=
  if new_val ≤ 0 then (s, some FlexErr.invalidParameter)
  else
    let s1 : FlexureState rows cols := { s with eet := new_val }
    ({ s1 with r := (create_kei_func_grid kei sqrtQ rows cols s1.dy s1.dx
        (alphaOf get_flexure_parameter s1)) }, none)

/-- The `eet` setter's caller-facing behavior: the updated instance, or the
raised error. -/
def set_eet {rows cols : ℕ} (s : FlexureState rows cols) (new_val : ℚ) :
    Except FlexErr (FlexureState rows cols) :=
  match set_eet_run kei sqrtQ get_flexure_parameter s new_val with
  | (_, some e) => Except.error e
  | (s1, none) => Except.ok s1

/-- `Flexure.__init__`: reject an unrecognized method string before anything
else, store the material constants and method, assign `self.eet = eet`
through the setter (which validates and builds `_r`), store `n_procs`, create
the zero-initialized output field, and rebuild `_r` once more. -/
def flexure_init (rows cols : ℕ) (dy dx : ℚ) (load : Field rows cols)
    (eet youngs : ℚ) (method : String) (rho_mantle gravity : ℚ)
    (n_procs : ℕ) : Except FlexErr (FlexureState rows cols) :=
  if method ≠ "airy" ∧ method ≠ "flexure" then
    Except.error (FlexErr.unsupportedMethod method)
  else
    let s0 : FlexureState rows cols :=
      { eet := 0, youngs := youngs, rho_mantle := rho_mantle
        gravity := gravity, method := method, n_procs := 0
        dy := dy, dx := dx, r := fun _ _ => 0, load := load
        deflection := fun _ _ => 0 }
    match set_eet kei sqrtQ get_flexure_parameter s0 eet with
    | Except.error e => Except.error e
    | Except.ok s1 =>
        let s2 : FlexureState rows cols :=
          { s1 with n_procs := n_procs, deflection := fun _ _ => 0 }
        Except.ok { s2 with r := (create_kei_func_grid kei sqrtQ rows cols
            s2.dy s2.dx (alphaOf get_flexure_parameter s2)) }

end Collaborators

/-! ### Helper lemmas shared by the claim theorems -/

/-- With at least one worker, every target row is owned by a worker whose
index is below `n_procs` (the ceiling-division row blocks cover the grid). -/
theorem row_covered {rows n_procs : ℕ} (hn : 1 ≤ n_procs) (qi : Fin rows) :
    qi.1 / chunk rows n_procs < n_procs := by
  have hq := qi.2
  have hc : 0 < chunk rows n_procs := Nat.div_pos (by omega) hn
  rw [Nat.div_lt_iff_lt_mul hc]
  unfold chunk
  have e := Nat.div_add_mod (rows + n_procs - 1) n_procs
  have hm : (rows + n_procs - 1) % n_procs < n_procs :=
    Nat.mod_lt _ hn
  set c := (rows + n_procs - 1) / n_procs with hcdef
  set A := n_procs * c with hA
  omega

/-- Normal form of the `eet` setter: the error, or the state with the new
`eet` stored and the kernel table rebuilt. -/
theorem set_eet_eq (kei sqrtQ : ℚ → ℚ) (gfp : ℚ → ℚ → ℕ → ℚ → ℚ)
    {rows cols : ℕ} (s : FlexureState rows cols) (v : ℚ) :
    set_eet kei sqrtQ gfp s v =
      if v ≤ 0 then Except.error FlexErr.invalidParameter
      else Except.ok { s with
        eet := v
        r := (create_kei_func_grid kei sqrtQ rows cols s.dy s.dx
          (gfp v s.youngs 2 (s.rho_mantle * s.gravity))) } := by
  unfold set_eet set_eet_run
  by_cases hv : v ≤ 0
  · rw [if_pos hv, if_pos hv]
  · rw [if_neg hv, if_neg hv]
    rfl

/-- Normal form of the constructor: the method check comes first, the `eet`
check second, and the constructed state carries the rebuilt kernel table and
a zero-initialized deflection field. -/
theorem flexure_init_eq (kei sqrtQ : ℚ → ℚ) (gfp : ℚ → ℚ → ℕ → ℚ → ℚ)
    (rows cols : ℕ) (dy dx : ℚ) (load : Field rows cols)
    (eet youngs : ℚ) (method : String) (rho g : ℚ) (np : ℕ) :
    flexure_init kei sqrtQ gfp rows cols dy dx load eet youngs method rho g
        np =
      if method ≠ "airy" ∧ method ≠ "flexure" then
        Except.error (FlexErr.unsupportedMethod method)
      else if eet ≤ 0 then Except.error FlexErr.invalidParameter
      else Except.ok
        { eet := eet, youngs := youngs, rho_mantle := rho, gravity := g,
          method := method, n_procs := np, dy := dy, dx := dx,
          r := (create_kei_func_grid kei sqrtQ rows cols dy dx
            (gfp eet youngs 2 (rho * g))),
          load := load, deflection := fun _ _ => 0 } := by
  unfold flexure_init
  by_cases hc : method ≠ "airy" ∧ method ≠ "flexure"
  · rw [if_pos hc, if_pos hc]
  · rw [if_neg hc, if_neg hc]
    simp only [set_eet_eq]
    by_cases he : eet ≤ 0
    · rw [if_pos he, if_pos he]
    · rw [if_neg he, if_neg he]
      rfl

/-- With at least one worker every target node's output is the full
superposition sum, whatever the incoming buffer held. -/
theorem subside_grid_in_parallel_apply {rows cols : ℕ}
    (dz load_area r : Field rows cols) (piQ alpha gamma : ℚ)
    {n_procs : ℕ} (hp : 1 ≤ n_procs) (qi : Fin rows) (qj : Fin cols) :
    subside_grid_in_parallel dz load_area r piQ alpha gamma n_procs qi qj =
      node_response load_area r piQ alpha gamma qi qj := by
  unfold subside_grid_in_parallel
  exact if_pos (row_covered hp qi)

/-- `subside_loads` at a target node, with at least one worker: the
superposition of the area-premultiplied loads against the stored table. -/
theorem subside_loads_apply (gfp : ℚ → ℚ → ℕ → ℚ → ℚ) (piQ : ℚ)
    {rows cols : ℕ} (s : FlexureState rows cols) (loads : Field rows cols)
    (out : Option (Field rows cols)) (hp : 1 ≤ s.n_procs)
    (qi : Fin rows) (qj : Fin cols) :
    subside_loads gfp piQ s loads out qi qj =
      node_response (fun i j => loads i j * s.dx * s.dy) s.r piQ
        (alphaOf gfp s) (gamma_mantle s) qi qj := by
  unfold subside_loads
  exact subside_grid_in_parallel_apply _ _ _ _ _ _ hp qi qj

/-- Branch normal form of `update`. -/
theorem update_eq (gfp : ℚ → ℚ → ℕ → ℚ → ℚ) (piQ : ℚ) {rows cols : ℕ}
    (s : FlexureState rows cols) :
    update gfp piQ s =
      if s.method = "airy" then
        { s with deflection := fun i j => s.load i j / gamma_mantle s }
      else
        { s with deflection :=
            subside_loads gfp piQ s s.load (some (fun _ _ => 0)) } := by
  unfold update
  rfl

/-! ### Concrete instances used by the witnesses -/

/-- Identity stand-in for the external special-function collaborators in
concrete witnesses. -/
def idQ : ℚ → ℚ := fun x => x

/-- Concrete stand-in for `get_flexure_parameter` in witnesses. -/
def gfpSample : ℚ → ℚ → ℕ → ℚ → ℚ := fun e y _ g => e + y + g

/-- A concrete instance state using the flexure method. -/
def sampleFlex : FlexureState 2 3 where
  eet := 65000
  youngs := 7
  rho_mantle := 3300
  gravity := 10
  method := "flexure"
  n_procs := 2
  dy := 2
  dx := 3
  r := fun i j => (i.1 : ℚ) + (j.1 : ℚ) + 1
  load := fun i j => if i.1 = 0 ∧ j.1 = 1 then 5 else 0
  deflection := fun _ _ => 7

/-- A concrete instance state using the airy method. -/
def sampleAiry : FlexureState 2 3 :=
  { sampleFlex with method := "airy", n_procs := 1 }

/-! ### Claim theorems -/

/-- C2: for every grid shape `(rows, cols)`, spacing `(dy, dx)` and
`alpha > 0`, the precomputed kernel table has the grid's shape (its type is
`Field rows cols`) and its entry at `(i, j)` is
`kei(sqrt((i*dy)² + (j*dx)²) / alpha)`, with `kei` the zero-order Kelvin
function supplied by the math-library collaborator. -/
theorem kei_grid_entry (kei sqrtQ : ℚ → ℚ) (rows cols : ℕ) (dy dx alpha : ℚ)
    (_halpha : 0 < alpha) (i : Fin rows) (j : Fin cols) :
    create_kei_func_grid kei sqrtQ rows cols dy dx alpha i j =
      kei (sqrtQ (((i.1 : ℚ) * dy) ^ 2 + ((j.1 : ℚ) * dx) ^ 2) / alpha) := by
  unfold create_kei_func_grid
  rw [add_comm]

/-- Witness for C2 at a concrete shape, spacing and alpha. -/
theorem kei_grid_entry_witness :
    (0 : ℚ) < 4 ∧
      create_kei_func_grid idQ idQ 2 3 2 3 4 1 2 =
        idQ (idQ ((((1 : Fin 2).1 : ℚ) * 2) ^ 2 +
          (((2 : Fin 3).1 : ℚ) * 3) ^ 2) / 4) :=
  ⟨by norm_num, kei_grid_entry idQ idQ 2 3 2 3 4 (by norm_num) 1 2⟩

/-- C3: with the airy method, `update` sets
`deflection[node] = load[node] / gamma_mantle` exactly and elementwise, and
each node's deflection depends only on that node's load: perturbing one load
value changes no other node's deflection. -/
theorem airy_update_pointwise (gfp : ℚ → ℚ → ℕ → ℚ → ℚ) (piQ : ℚ)
    {rows cols : ℕ} (s : FlexureState rows cols) (hm : s.method = "airy") :
    (∀ i j, (update gfp piQ s).deflection i j =
      s.load i j / gamma_mantle s) ∧
    (∀ (s' : FlexureState rows cols) (i0 : Fin rows) (j0 : Fin cols),
      s'.method = "airy" → s'.rho_mantle = s.rho_mantle →
      s'.gravity = s.gravity →
      (∀ i j, ¬(i = i0 ∧ j = j0) → s'.load i j = s.load i j) →
      ∀ i j, ¬(i = i0 ∧ j = j0) →
        (update gfp piQ s').deflection i j =
          (update gfp piQ s).deflection i j) := by
  constructor
  · intro i j
    rw [update_eq, if_pos hm]
  · intro s' i0 j0 hm' hrho hg hload i j hij
    rw [update_eq gfp piQ s', update_eq gfp piQ s, if_pos hm', if_pos hm]
    show s'.load i j / gamma_mantle s' = s.load i j / gamma_mantle s
    unfold gamma_mantle
    rw [hload i j hij, hrho, hg]

/-- Witness for C3 at a concrete airy-method state. -/
theorem airy_update_pointwise_witness :
    (∀ i j, (update gfpSample 3 sampleAiry).deflection i j =
      sampleAiry.load i j / gamma_mantle sampleAiry) ∧
    (∀ (s' : FlexureState 2 3) (i0 : Fin 2) (j0 : Fin 3),
      s'.method = "airy" → s'.rho_mantle = sampleAiry.rho_mantle →
      s'.gravity = sampleAiry.gravity →
      (∀ i j, ¬(i = i0 ∧ j = j0) → s'.load i j = sampleAiry.load i j) →
      ∀ i j, ¬(i = i0 ∧ j = j0) →
        (update gfpSample 3 s').deflection i j =
          (update gfpSample 3 sampleAiry).deflection i j) :=
  airy_update_pointwise gfpSample 3 sampleAiry rfl

/-- C7: `update` leaves the caller's load field unmodified and writes no
state other than the output deflection field: the updated instance agrees
with the old one on every other component. -/
theorem update_frame (gfp : ℚ → ℚ → ℕ → ℚ → ℚ) (piQ : ℚ)
    {rows cols : ℕ} (s : FlexureState rows cols) :
    (update gfp piQ s).load = s.load ∧
      update gfp piQ s =
        { s with deflection := (update gfp piQ s).deflection } := by
  rw [update_eq]
  by_cases hm : s.method = "airy"
  · rw [if_pos hm]
    exact ⟨rfl, rfl⟩
  · rw [if_neg hm]
    exact ⟨rfl, rfl⟩

/-- C8: construction fails with the UnsupportedMethod error kind exactly
when the method string is neither "airy" nor "flexure"; the check precedes
every other construction step (the error case builds no state and touches no
field), and a recognized method string never triggers that error. -/
theorem init_unsupported_method (kei sqrtQ : ℚ → ℚ)
    (gfp : ℚ → ℚ → ℕ → ℚ → ℚ) (rows cols : ℕ) (dy dx : ℚ)
    (load : Field rows cols) (eet youngs : ℚ) (method : String)
    (rho g : ℚ) (np : ℕ) :
    (∃ m', flexure_init kei sqrtQ gfp rows cols dy dx load eet youngs method
        rho g np = Except.error (FlexErr.unsupportedMethod m')) ↔
      method ≠ "airy" ∧ method ≠ "flexure" := by
  rw [flexure_init_eq]
  by_cases hc : method ≠ "airy" ∧ method ≠ "flexure"
  · rw [if_pos hc]
    exact ⟨fun _ => hc, fun _ => ⟨method, rfl⟩⟩
  · rw [if_neg hc]
    constructor
    · rintro ⟨m', hm'⟩
      by_cases he : eet ≤ 0
      · rw [if_pos he] at hm'
        exact absurd hm' (by simp)
      · rw [if_neg he] at hm'
        exact absurd hm' (by simp)
    · intro h
      exact absurd h hc

/-- C10: a failed assignment of a non-positive eet raises InvalidParameter
and leaves the instance state exactly as it was — stored eet kept, kernel
table not rebuilt — because the check precedes every mutation in the
setter. -/
theorem failed_eet_set_preserves_state (kei sqrtQ : ℚ → ℚ)
    (gfp : ℚ → ℚ → ℕ → ℚ → ℚ) {rows cols : ℕ} (s : FlexureState rows cols)
    (v : ℚ) (hv : v ≤ 0) :
    set_eet_run kei sqrtQ gfp s v = (s, some FlexErr.invalidParameter) := by
  unfold set_eet_run
  rw [if_pos hv]

/-- Witness for C10 at a concrete state and candidate value. -/
theorem failed_eet_set_preserves_state_witness :
    (-1 : ℚ) ≤ 0 ∧
      set_eet_run idQ idQ gfpSample sampleFlex (-1) =
        (sampleFlex, some FlexErr.invalidParameter) :=
  ⟨by norm_num,
    failed_eet_set_preserves_state idQ idQ gfpSample sampleFlex (-1)
      (by norm_num)⟩

/-- C1: with the flexure method, the deflection at every target node
`(qi, qj)` equals the sum over all source nodes `p` with nonzero load of
`load[p] * dx * dy * (2 / (π * alpha² * gamma_mantle)) *
KernelTable[|qi-pi|, |qj-pj|]`, with `KernelTable` the precomputed kei grid
and `alpha` the current flexural parameter. -/
theorem flexure_update_superposition (gfp : ℚ → ℚ → ℕ → ℚ → ℚ) (piQ : ℚ)
    {rows cols : ℕ} (s : FlexureState rows cols)
    (hm : s.method = "flexure") (hp : 1 ≤ s.n_procs)
    (qi : Fin rows) (qj : Fin cols) :
    (update gfp piQ s).deflection qi qj =
      ∑ p ∈ Finset.univ.filter
          (fun p : Fin rows × Fin cols => s.load p.1 p.2 ≠ 0),
        s.load p.1 p.2 * s.dx * s.dy *
          kernel_norm piQ (alphaOf gfp s) (gamma_mantle s) *
          s.r (absDiff qi p.1) (absDiff qj p.2) := by
  have hne : ¬s.method = "airy" := by rw [hm]; decide
  rw [update_eq, if_neg hne]
  show subside_loads gfp piQ s s.load (some (fun _ _ => 0)) qi qj = _
  rw [subside_loads_apply gfp piQ s s.load _ hp qi qj]
  unfold node_response
  rw [Finset.sum_filter]
  apply Finset.sum_congr rfl
  intro p _
  by_cases h0 : s.load p.1 p.2 = 0
  · simp [h0]
  · by_cases h1 : s.load p.1 p.2 * s.dx * s.dy = 0
    · simp [h0, h1]
    · simp [h0, h1]

/-- Witness for C1 at a concrete flexure-method state and target node. -/
theorem flexure_update_superposition_witness :
    (update gfpSample 3 sampleFlex).deflection 0 1 =
      ∑ p ∈ Finset.univ.filter
          (fun p : Fin 2 × Fin 3 => sampleFlex.load p.1 p.2 ≠ 0),
        sampleFlex.load p.1 p.2 * sampleFlex.dx * sampleFlex.dy *
          kernel_norm 3 (alphaOf gfpSample sampleFlex)
            (gamma_mantle sampleFlex) *
          sampleFlex.r (absDiff 0 p.1) (absDiff 1 p.2) :=
  flexure_update_superposition gfpSample 3 sampleFlex rfl (by decide) 0 1

/-- C4: the parallel dispatch refines the serial sum — solving with
`n_procs = k` (any `k ≥ 1`) produces the same deflection field as solving
with `n_procs = 1`, independent of worker count. -/
theorem subside_worker_count_invariant (gfp : ℚ → ℚ → ℕ → ℚ → ℚ)
    (piQ : ℚ) {rows cols : ℕ} (s : FlexureState rows cols)
    (loads : Field rows cols) (out : Option (Field rows cols)) (k : ℕ)
    (hk : 1 ≤ k) :
    subside_loads gfp piQ { s with n_procs := k } loads out =
      subside_loads gfp piQ { s with n_procs := 1 } loads out := by
  funext qi qj
  rw [subside_loads_apply gfp piQ { s with n_procs := k } loads out hk
      qi qj,
    subside_loads_apply gfp piQ { s with n_procs := 1 } loads out
      (le_refl 1) qi qj]
  rfl

/-- Witness for C4 with three workers against one. -/
theorem subside_worker_count_invariant_witness :
    1 ≤ 3 ∧
      subside_loads gfpSample 3 { sampleFlex with n_procs := 3 }
          sampleFlex.load none =
        subside_loads gfpSample 3 { sampleFlex with n_procs := 1 }
          sampleFlex.load none :=
  ⟨by decide, subside_worker_count_invariant gfpSample 3 sampleFlex
    sampleFlex.load none 3 (by decide)⟩

/-- C5: every successful assignment of a positive eet — at construction or
via the setter — stores the value and synchronously rebuilds the kernel
table from the current grid shape, spacing, and the alpha derived from the
new eet, so no subsequent solve can see a stale table. -/
theorem eet_set_rebuilds_kernel (kei sqrtQ : ℚ → ℚ)
    (gfp : ℚ → ℚ → ℕ → ℚ → ℚ) {rows cols : ℕ} (s : FlexureState rows cols)
    (v : ℚ) (rows' cols' : ℕ) (dy dx : ℚ) (load : Field rows' cols')
    (eet youngs : ℚ) (method : String) (rho g : ℚ) (np : ℕ)
    (hv : 0 < v) (he : 0 < eet)
    (hmethod : method = "airy" ∨ method = "flexure") :
    (∃ s', set_eet kei sqrtQ gfp s v = Except.ok s' ∧ s'.eet = v ∧
      s'.r = create_kei_func_grid kei sqrtQ rows cols s'.dy s'.dx
        (alphaOf gfp s')) ∧
    (∃ t, flexure_init kei sqrtQ gfp rows' cols' dy dx load eet youngs
        method rho g np = Except.ok t ∧ t.eet = eet ∧
      t.r = create_kei_func_grid kei sqrtQ rows' cols' t.dy t.dx
        (alphaOf gfp t)) := by
  have hc : ¬(method ≠ "airy" ∧ method ≠ "flexure") := by
    rcases hmethod with h | h <;> simp [h]
  constructor
  · refine ⟨?_, ?_, ?_, ?_⟩
    · exact { s with
        eet := v
        r := (create_kei_func_grid kei sqrtQ rows cols s.dy s.dx
          (gfp v s.youngs 2 (s.rho_mantle * s.gravity))) }
    · rw [set_eet_eq, if_neg (not_le.mpr hv)]
    · rfl
    · rfl
  · refine ⟨?_, ?_, ?_, ?_⟩
    · exact
        { eet := eet, youngs := youngs, rho_mantle := rho, gravity := g,
          method := method, n_procs := np, dy := dy, dx := dx,
          r := (create_kei_func_grid kei sqrtQ rows' cols' dy dx
            (gfp eet youngs 2 (rho * g))),
          load := load, deflection := fun _ _ => 0 }
    · rw [flexure_init_eq, if_neg hc, if_neg (not_le.mpr he)]
    · rfl
    · rfl

/-- Witness for C5 with a concrete setter call and a concrete
construction. -/
theorem eet_set_rebuilds_kernel_witness :
    (∃ s', set_eet idQ idQ gfpSample sampleFlex 70000 = Except.ok s' ∧
      s'.eet = 70000 ∧
      s'.r = create_kei_func_grid idQ idQ 2 3 s'.dy s'.dx
        (alphaOf gfpSample s')) ∧
    (∃ t, flexure_init idQ idQ gfpSample 2 3 2 3 sampleFlex.load 65000 7
        "airy" 3300 10 1 = Except.ok t ∧ t.eet = 65000 ∧
      t.r = create_kei_func_grid idQ idQ 2 3 t.dy t.dx
        (alphaOf gfpSample t)) :=
  eet_set_rebuilds_kernel idQ idQ gfpSample sampleFlex 70000 2 3 2 3
    sampleFlex.load 65000 7 "airy" 3300 10 1 (by norm_num) (by norm_num)
    (Or.inl rfl)

/-- C6: the solve output never depends on the output buffer's prior
contents: `subside_loads` returns the same field whatever `out` holds
(including a caller-supplied buffer with arbitrary contents), and `update`'s
deflection is the same whatever the deflection field held before — it is a
function of the load alone. -/
theorem solve_ignores_prior_output (gfp : ℚ → ℚ → ℕ → ℚ → ℚ) (piQ : ℚ)
    {rows cols : ℕ} (s : FlexureState rows cols) (loads : Field rows cols)
    (out1 out2 : Option (Field rows cols)) (d : Field rows cols)
    (hp : 1 ≤ s.n_procs) :
    subside_loads gfp piQ s loads out1 =
      subside_loads gfp piQ s loads out2 ∧
    (update gfp piQ { s with deflection := d }).deflection =
      (update gfp piQ s).deflection := by
  constructor
  · funext qi qj
    rw [subside_loads_apply gfp piQ s loads out1 hp qi qj,
      subside_loads_apply gfp piQ s loads out2 hp qi qj]
  · rw [update_eq gfp piQ { s with deflection := d }, update_eq gfp piQ s]
    by_cases hm : s.method = "airy"
    · rw [if_pos hm, if_pos hm]
      rfl
    · rw [if_neg hm, if_neg hm]
      rfl

/-- Witness for C6 at a concrete state, two out buffers and a dirty
deflection field. -/
theorem solve_ignores_prior_output_witness :
    subside_loads gfpSample 3 sampleFlex sampleFlex.load none =
      subside_loads gfpSample 3 sampleFlex sampleFlex.load
        (some (fun _ _ => 9)) ∧
    (update gfpSample 3
        { sampleFlex with deflection := fun _ _ => 5 }).deflection =
      (update gfpSample 3 sampleFlex).deflection :=
  solve_ignores_prior_output gfpSample 3 sampleFlex sampleFlex.load none
    (some (fun _ _ => 9)) (fun _ _ => 5) (by decide)

/-- C9: setting eet to a non-positive value fails with the InvalidParameter
error kind, both at construction and via the setter, and any positive value
succeeds. -/
theorem eet_validation (kei sqrtQ : ℚ → ℚ) (gfp : ℚ → ℚ → ℕ → ℚ → ℚ)
    {rows cols : ℕ} (s : FlexureState rows cols) (v : ℚ)
    (rows' cols' : ℕ) (dy dx : ℚ) (load : Field rows' cols')
    (eet youngs : ℚ) (method : String) (rho g : ℚ) (np : ℕ)
    (hmethod : method = "airy" ∨ method = "flexure") :
    (set_eet kei sqrtQ gfp s v = Except.error FlexErr.invalidParameter ↔
      v ≤ 0) ∧
    ((∃ s', set_eet kei sqrtQ gfp s v = Except.ok s') ↔ 0 < v) ∧
    (flexure_init kei sqrtQ gfp rows' cols' dy dx load eet youngs method
        rho g np = Except.error FlexErr.invalidParameter ↔ eet ≤ 0) ∧
    ((∃ t, flexure_init kei sqrtQ gfp rows' cols' dy dx load eet youngs
        method rho g np = Except.ok t) ↔ 0 < eet) := by
  have hc : ¬(method ≠ "airy" ∧ method ≠ "flexure") := by
    rcases hmethod with h | h <;> simp [h]
  rw [set_eet_eq, flexure_init_eq, if_neg hc]
  refine ⟨?_, ?_, ?_, ?_⟩
  · by_cases hv : v ≤ 0
    · rw [if_pos hv]
      exact ⟨fun _ => hv, fun _ => rfl⟩
    · rw [if_neg hv]
      exact ⟨fun h => absurd h (by simp), fun h => absurd h hv⟩
  · by_cases hv : v ≤ 0
    · rw [if_pos hv]
      constructor
      · rintro ⟨s', hs'⟩
        exact absurd hs' (by simp)
      · intro h0
        exact absurd hv (not_le.mpr h0)
    · rw [if_neg hv]
      exact ⟨fun _ => lt_of_not_le hv, fun _ => ⟨_, rfl⟩⟩
  · by_cases he : eet ≤ 0
    · rw [if_pos he]
      exact ⟨fun _ => he, fun _ => rfl⟩
    · rw [if_neg he]
      exact ⟨fun h => absurd h (by simp), fun h => absurd h he⟩
  · by_cases he : eet ≤ 0
    · rw [if_pos he]
      constructor
      · rintro ⟨t, ht⟩
        exact absurd ht (by simp)
      · intro h0
        exact absurd he (not_le.mpr h0)
    · rw [if_neg he]
      exact ⟨fun _ => lt_of_not_le he, fun _ => ⟨_, rfl⟩⟩

/-- Witness for C9 at a concrete state, candidate value and construction. -/
theorem eet_validation_witness :
    (set_eet idQ idQ gfpSample sampleFlex (-2) =
        Except.error FlexErr.invalidParameter ↔ (-2 : ℚ) ≤ 0) ∧
    ((∃ s', set_eet idQ idQ gfpSample sampleFlex (-2) = Except.ok s') ↔
      (0 : ℚ) < -2) ∧
    (flexure_init idQ idQ gfpSample 2 3 2 3 sampleFlex.load 65000 7
        "flexure" 3300 10 1 = Except.error FlexErr.invalidParameter ↔
      (65000 : ℚ) ≤ 0) ∧
    ((∃ t, flexure_init idQ idQ gfpSample 2 3 2 3 sampleFlex.load 65000 7
        "flexure" 3300 10 1 = Except.ok t) ↔ (0 : ℚ) < 65000) :=
  eet_validation idQ idQ gfpSample sampleFlex (-2) 2 3 2 3 sampleFlex.load
    65000 7 "flexure" 3300 10 1 (Or.inr rfl)

end FlexureModel
